import Mathlib

/-!
Verification of the solar-tracker core (`SolarTrackerSimulator.tsx`).

The numeric code is shallowly embedded over `ℝ` (JS doubles are idealized as
real numbers); the calendar arithmetic, which JS performs exactly on small
integers, is embedded over `ℤ`.  JS `Date` parsing of a string without a
timezone suffix is machine-timezone dependent, so the parse model takes the
machine's UTC offset (in minutes) as an explicit parameter.  NaN-producing
behaviour (invalid dates, `acos`/`asin` domain violations) is modelled
separately with `Option ℝ`, where `none` stands for NaN and every strict
JS arithmetic operation propagates it.
-/

/-- Model of `deg * Math.PI / 180` (source line 37). -/
noncomputable def degToRad (deg : ℝ) : ℝ := deg * Real.pi / 180

/-- Model of `rad * 180 / Math.PI` (source line 38). -/
noncomputable def radToDeg (rad : ℝ) : ℝ := rad * 180 / Real.pi

/-- Truncation toward zero, the rounding used by the JS `%` operator. -/
noncomputable def jsTrunc (r : ℝ) : ℤ := if 0 ≤ r then ⌊r⌋ else ⌈r⌉

/-- The JS remainder operator `x % y` on numbers: remainder with the sign of
the dividend, `x - y * trunc(x / y)`. -/
noncomputable def jsRem (x y : ℝ) : ℝ := x - y * jsTrunc (x / y)

/-- Model of `normalizeAngle` (source lines 40-43): `angle % 360`, then add 360 if
negative. -/
noncomputable def normalizeAngle (angle : ℝ) : ℝ :=
  let normalized := jsRem angle 360
  if normalized < 0 then normalized + 360 else normalized

/-- The JS `x || 0` pattern applied to a (non-NaN) number: `0` stays `0`,
any other number is returned unchanged.  On reals this is the identity; it is
kept so the embedding mirrors source line 81 token for token. -/
noncomputable def jsOrZero (x : ℝ) : ℝ := if x = 0 then 0 else x

/-- The Gregorian-to-Julian-Day-number conversion of source lines 60-70:
`A = ⌊(14 - month)/12⌋`, `Y = year + 4800 - A`, `M = month + 12A - 3`,
`JDN = day + ⌊(153M + 2)/5⌋ + 365Y + ⌊Y/4⌋ - ⌊Y/100⌋ + ⌊Y/400⌋ - 32045`.
`Math.floor` of an exact integer quotient is `Int.fdiv`. -/
def jdnFromYmd (year month day : ℤ) : ℤ :=
  let A := Int.fdiv (14 - month) 12
  let Y := year + 4800 - A
  let M := month + 12 * A - 3
  day + Int.fdiv (153 * M + 2) 5 + 365 * Y + Int.fdiv Y 4 - Int.fdiv Y 100 +
    Int.fdiv Y 400 - 32045

/-- Inverse of the Julian-Day-number conversion: the proleptic Gregorian
calendar date (year, month, day) of a given Julian Day number.  Standard
era/year-of-era decomposition; used to model the `getUTC*` accessors of a JS
`Date`. -/
def civilFromJdn (jdn : ℤ) : ℤ × ℤ × ℤ :=
  let z := jdn - 1721120
  let era := Int.fdiv z 146097
  let doe := z - era * 146097
  let yoe := Int.fdiv (doe - Int.fdiv doe 1460 + Int.fdiv doe 36524 -
    Int.fdiv doe 146096) 365
  let y := yoe + era * 400
  let doy := doe - (365 * yoe + Int.fdiv yoe 4 - Int.fdiv yoe 100)
  let mp := Int.fdiv (5 * doy + 2) 153
  let d := doy - Int.fdiv (153 * mp + 2) 5 + 1
  let m := if mp < 10 then mp + 3 else mp - 9
  (if m ≤ 2 then y + 1 else y, m, d)

/-- A calendar date as entered in the date field. -/
structure Ymd where
  year : ℤ
  month : ℤ
  day : ℤ
deriving DecidableEq, Repr

/-- A time of day as entered in the time field (the source appends `:00`
seconds before parsing). -/
structure Hm where
  hour : ℤ
  minute : ℤ
deriving DecidableEq, Repr

/-- The accessors of the JS `Date` object built on source line 46, for a
successfully parsed date: `getHours()/getMinutes()/getSeconds()` (machine-local
fields) and `getUTCFullYear()/getUTCMonth()+1/getUTCDate()/getUTCHours()/
getUTCMinutes()`. -/
structure JsDateG where
  hours : ℤ
  minutes : ℤ
  seconds : ℤ
  utcYear : ℤ
  utcMonth1 : ℤ
  utcDay : ℤ
  utcHours : ℤ
  utcMinutes : ℤ
deriving DecidableEq, Repr

/-- Model of `new Date(` date `T` time `:00)` on a machine whose local
timezone is a fixed `machineOffMin` minutes east of UTC: a dateless ISO string
is parsed as machine-local civil time, so the underlying instant (in minutes)
is the local civil minute count shifted by the machine offset, and the local /
UTC accessors decompose the instant in the respective zones. -/
def parseLocal (d : Ymd) (t : Hm) (machineOffMin : ℤ) : JsDateG :=
  let l := jdnFromYmd d.year d.month d.day * 1440 + t.hour * 60 + t.minute
  let u := l - machineOffMin
  let c := civilFromJdn (Int.fdiv u 1440)
  { hours := Int.fdiv (Int.fmod l 1440) 60
    minutes := Int.fmod l 60
    seconds := 0
    utcYear := c.1
    utcMonth1 := c.2.1
    utcDay := c.2.2
    utcHours := Int.fdiv (Int.fmod u 1440) 60
    utcMinutes := Int.fmod u 60 }

/-- The tracking mode (source line 14). -/
inductive TrackingMode where
  | auto
  | manual
deriving DecidableEq, Repr

/-- Model of `SolarState` (source lines 16-29), with the date and time strings replaced
by their parsed calendar fields. -/
structure SolarState where
  latitude : ℝ
  longitude : ℝ
  utcOffset : ℝ
  date : Ymd
  time : Hm
  trackingMode : TrackingMode
  manualPitch : ℝ
  manualYaw : ℝ
  panelWidth : ℝ
  panelHeight : ℝ
  panelElevation : ℝ
  albedo : ℝ

/-- Model of `SunPosition` (source lines 31-35); the `THREE.Vector3` is a real triple. -/
structure SunPosition where
  azimuth : ℝ
  elevation : ℝ
  vector : ℝ × ℝ × ℝ

/-- Model of `THREE.Vector3.length()`. -/
noncomputable def norm3 (v : ℝ × ℝ × ℝ) : ℝ :=
  Real.sqrt (v.1 ^ 2 + v.2.1 ^ 2 + v.2.2 ^ 2)

/-- Model of `THREE.Vector3.dot`. -/
noncomputable def dot3 (a b : ℝ × ℝ × ℝ) : ℝ :=
  a.1 * b.1 + a.2.1 * b.2.1 + a.2.2 * b.2.2

/-- Componentwise negation of a vector. -/
noncomputable def neg3 (v : ℝ × ℝ × ℝ) : ℝ × ℝ × ℝ := (-v.1, -v.2.1, -v.2.2)

/-- Model of `THREE.Vector3.normalize()`: divide by `length() || 1`, so a zero-length
vector is returned unchanged. -/
noncomputable def normalize3 (v : ℝ × ℝ × ℝ) : ℝ × ℝ × ℝ :=
  if norm3 v = 0 then v else (v.1 / norm3 v, v.2.1 / norm3 v, v.2.2 / norm3 v)

/-- Model of `totalMinutes` (source lines 53-54): local-time getters. -/
noncomputable def totalMinutesOf (g : JsDateG) : ℝ :=
  (g.hours : ℝ) * 60 + (g.minutes : ℝ) + (g.seconds : ℝ) / 60

/-- Model of `julianDay` (source lines 56-70): the JDN formula applied to the
`getUTC*` fields. -/
def julianDayOf (g : JsDateG) : ℤ := jdnFromYmd g.utcYear g.utcMonth1 g.utcDay

/-- Model of `julianDayWithTime` (source lines 72-75). -/
noncomputable def julianDayWithTimeOf (g : JsDateG) (utcOffset : ℝ) : ℝ :=
  (julianDayOf g : ℝ) +
    ((g.utcHours : ℝ) - utcOffset + (g.utcMinutes : ℝ) / 60) / 24 - 0.5

/-- Model of `julianCentury` (source line 76). -/
noncomputable def julianCenturyOf (g : JsDateG) (utcOffset : ℝ) : ℝ :=
  (julianDayWithTimeOf g utcOffset - 2451545) / 36525

/-- Model of `geomMeanLongSun` (source lines 78-81), including the `|| 0` fallback. -/
noncomputable def geomMeanLongSunOf (T : ℝ) : ℝ :=
  jsOrZero (normalizeAngle (280.46646 + T * (36000.76983 + 0.0003032 * T)))

/-- Model of `geomMeanAnomSun` (source lines 83-84). -/
noncomputable def geomMeanAnomSunOf (T : ℝ) : ℝ :=
  357.52911 + T * (35999.05029 - 0.0001537 * T)

/-- Model of `eccentEarthOrbit` (source lines 86-88). -/
noncomputable def eccentEarthOrbitOf (T : ℝ) : ℝ :=
  0.016708634 - T * (0.000042037 + 0.0000001267 * T)

/-- Model of `sunEqOfCenter` (source lines 90-95). -/
noncomputable def sunEqOfCenterOf (T : ℝ) : ℝ :=
  Real.sin (degToRad (geomMeanAnomSunOf T)) *
      (1.914602 - T * (0.004817 + 0.000014 * T)) +
    Real.sin (degToRad (2 * geomMeanAnomSunOf T)) * (0.019993 - 0.000101 * T) +
    Real.sin (degToRad (3 * geomMeanAnomSunOf T)) * 0.000289

/-- Model of `sunTrueLong` (source line 97). -/
noncomputable def sunTrueLongOf (T : ℝ) : ℝ :=
  geomMeanLongSunOf T + sunEqOfCenterOf T

/-- Model of `sunAppLong` (source lines 98-101). -/
noncomputable def sunAppLongOf (T : ℝ) : ℝ :=
  sunTrueLongOf T - 0.00569 -
    0.00478 * Real.sin (degToRad (125.04 - 1934.136 * T))

/-- Model of `meanObliqEcliptic` (source lines 103-109). -/
noncomputable def meanObliqEclipticOf (T : ℝ) : ℝ :=
  23 + (26 + (21.448 - T * (46.815 + T * (0.00059 - T * 0.001813)))) / 60

/-- Model of `obliqCorr` (source lines 111-114). -/
noncomputable def obliqCorrOf (T : ℝ) : ℝ :=
  meanObliqEclipticOf T + 0.00256 * Real.cos (degToRad (125.04 - 1934.136 * T))

/-- Model of `sunDeclination` (source lines 116-120). -/
noncomputable def sunDeclinationOf (T : ℝ) : ℝ :=
  radToDeg (Real.arcsin
    (Real.sin (degToRad (obliqCorrOf T)) * Real.sin (degToRad (sunAppLongOf T))))

/-- Model of `varY` (source lines 122-124). -/
noncomputable def varYOf (T : ℝ) : ℝ :=
  Real.tan (degToRad (obliqCorrOf T / 2)) * Real.tan (degToRad (obliqCorrOf T / 2))

/-- Model of `eqOfTime` (source lines 126-144). -/
noncomputable def eqOfTimeOf (T : ℝ) : ℝ :=
  4 * radToDeg (varYOf T * Real.sin (2 * degToRad (geomMeanLongSunOf T)) -
    2 * eccentEarthOrbitOf T * Real.sin (degToRad (geomMeanAnomSunOf T)) +
    4 * eccentEarthOrbitOf T * varYOf T * Real.sin (degToRad (geomMeanAnomSunOf T)) *
      Real.cos (2 * degToRad (geomMeanLongSunOf T)) -
    0.5 * varYOf T * varYOf T * Real.sin (4 * degToRad (geomMeanLongSunOf T)) -
    1.25 * eccentEarthOrbitOf T * eccentEarthOrbitOf T *
      Real.sin (2 * degToRad (geomMeanAnomSunOf T)))

/-- The wrap of source line 148: `((x % 1440) + 1440) % 1440`. -/
noncomputable def wrap1440 (x : ℝ) : ℝ := jsRem (jsRem x 1440 + 1440) 1440

/-- Model of `trueSolarTime` (source lines 146-148). -/
noncomputable def trueSolarTimeOf (g : JsDateG) (lon tz : ℝ) : ℝ :=
  wrap1440 (totalMinutesOf g + eqOfTimeOf (julianCenturyOf g tz) + 4 * lon - 60 * tz)

/-- Model of `hourAngle` (source lines 150-151): `trueSolarTime / 4 - 180`, plus 360 if
below -180. -/
noncomputable def hourAngleOf (tst : ℝ) : ℝ :=
  let ha := tst / 4 - 180
  if ha < -180 then ha + 360 else ha

/-- Model of `cosZenith` (source lines 157-159): spherical law of cosines. -/
noncomputable def cosZenithOf (latRad declRad haRad : ℝ) : ℝ :=
  Real.sin latRad * Real.sin declRad +
    Real.cos latRad * Real.cos declRad * Real.cos haRad

/-- Model of `zenith` (source line 160): `Math.min(Math.acos(Math.max(cosZenith, -1)),
Math.PI)` — note only the lower side is clamped before `acos`. -/
noncomputable def zenithOf (cz : ℝ) : ℝ :=
  min (Real.arccos (max cz (-1))) Real.pi

/-- Model of `azimuth` (source lines 163-182): 0 unless the denominator
`cos(lat)·sin(zenith)` exceeds 0.001 in magnitude, otherwise the clamped
`acos` ratio, reflected when `sin(hourAngle) > 0`, normalized to degrees. -/
noncomputable def azimuthOf (latRad declRad haRad zenith : ℝ) : ℝ :=
  if 0.001 < |Real.cos latRad * Real.sin zenith| then
    let azRad := Real.arccos (min (max
      ((Real.sin latRad * Real.cos zenith - Real.sin declRad) /
        (Real.cos latRad * Real.sin zenith)) (-1)) 1)
    let azRad2 := if 0 < Real.sin haRad then 2 * Real.pi - azRad else azRad
    normalizeAngle (radToDeg azRad2)
  else 0

/-- Model of `sunVector` (source lines 188-192): Y-up spherical-to-Cartesian, then
`normalize()`. -/
noncomputable def sunVectorOf (azimuth elevClamped : ℝ) : ℝ × ℝ × ℝ :=
  normalize3
    (Real.sin (degToRad azimuth) * Real.cos (degToRad elevClamped),
     Real.sin (degToRad elevClamped),
     Real.cos (degToRad azimuth) * Real.cos (degToRad elevClamped))

/-- Model of `calculateSunPosition` (source lines 45-199), for a machine whose fixed
UTC offset is `machineOffMin` minutes. -/
noncomputable def calculateSunPosition (machineOffMin : ℤ) (s : SolarState) :
    SunPosition :=
  let g := parseLocal s.date s.time machineOffMin
  let T := julianCenturyOf g s.utcOffset
  let latRad := degToRad s.latitude
  let declRad := degToRad (sunDeclinationOf T)
  let haRad := degToRad (hourAngleOf (trueSolarTimeOf g s.longitude s.utcOffset))
  let zenith := zenithOf (cosZenithOf latRad declRad haRad)
  let elevation := 90 - radToDeg zenith
  let azimuth := azimuthOf latRad declRad haRad zenith
  let elevationClamped := max elevation (-5)
  { azimuth := azimuth
    elevation := elevationClamped
    vector := sunVectorOf azimuth elevationClamped }

/-- The pose returned by `getPanelNormal` (source lines 201-218). -/
structure PanelPose where
  vector : ℝ × ℝ × ℝ
  pitch : ℝ
  yaw : ℝ

/-- Model of `getPanelNormal` (source lines 201-218): in auto mode the sun's
elevation/azimuth, in manual mode the raw manual pitch/yaw, plus the Y-up
normal vector built from them. -/
noncomputable def getPanelNormal (s : SolarState) (sun : SunPosition) :
    PanelPose :=
  let pitch := if s.trackingMode = TrackingMode.auto then sun.elevation
    else s.manualPitch
  let yaw := if s.trackingMode = TrackingMode.auto then sun.azimuth
    else s.manualYaw
  { vector := normalize3
      (Real.sin (degToRad yaw) * Real.cos (degToRad pitch),
       Real.sin (degToRad pitch),
       Real.cos (degToRad yaw) * Real.cos (degToRad pitch))
    pitch := pitch
    yaw := yaw }

/-- The yaw angle actually applied by `PanelAssembly` (source line 229):
`degToRad(normalizeAngle(yaw))`. -/
noncomputable def panelAssemblyYawRad (yaw : ℝ) : ℝ :=
  degToRad (normalizeAngle yaw)

/-- The pitch actually applied by `PanelAssembly` (source line 230):
`Math.min(Math.max(pitch, 0), 90)`. -/
noncomputable def panelAssemblyPitchClamped (pitch : ℝ) : ℝ :=
  min (max pitch 0) 90

/-- The incidence metrics of `Metrics` (source lines 327-331): the incidence
angle in degrees and the `effectiveIrradiance` fraction. -/
noncomputable def metricsOf (sunVector panelNormal : ℝ × ℝ × ℝ) : ℝ × ℝ :=
  let dot := dot3 sunVector panelNormal
  let angle := Real.arccos (min (max dot (-1)) 1)
  (radToDeg angle, max 0 (Real.cos angle))

/-! ### NaN semantics

JS numbers extended with NaN, modelled as `Option ℝ` with `none` for NaN.
Strict operations (arithmetic, `sin`, `cos`, `floor`, `%`, `Math.min/max`)
propagate NaN; `acos`/`asin` additionally produce NaN outside `[-1,1]`;
comparisons are false on NaN; `x || 0` turns NaN into 0. -/

/-- Lift a strict binary JS operation to NaN semantics. -/
noncomputable def o2 (f : ℝ → ℝ → ℝ) (a b : Option ℝ) : Option ℝ :=
  a.bind fun x => b.map fun y => f x y

/-- Lift a strict ternary JS operation to NaN semantics. -/
noncomputable def o3 (f : ℝ → ℝ → ℝ → ℝ) (a b c : Option ℝ) : Option ℝ :=
  a.bind fun x => b.bind fun y => c.map fun z => f x y z

/-- A JS comparison `x > 0`, which is false when `x` is NaN. -/
noncomputable def jsGtZero (a : Option ℝ) : Bool :=
  match a with
  | some v => decide (0 < v)
  | none => false

/-- A JS comparison `Math.abs(x) > t`, which is false when `x` is NaN. -/
noncomputable def jsAbsGt (a : Option ℝ) (t : ℝ) : Bool :=
  match a with
  | some v => decide (t < |v|)
  | none => false

/-- Model of `Math.max` under NaN semantics (NaN-propagating). -/
noncomputable def jsMaxO (a b : Option ℝ) : Option ℝ := o2 max a b

/-- Model of `Math.min` under NaN semantics (NaN-propagating). -/
noncomputable def jsMinO (a b : Option ℝ) : Option ℝ := o2 min a b

/-- Model of `Math.acos` under NaN semantics: NaN on NaN and outside `[-1,1]`. -/
noncomputable def jsAcosO (a : Option ℝ) : Option ℝ :=
  a.bind fun x => if -1 ≤ x ∧ x ≤ 1 then some (Real.arccos x) else none

/-- Model of `Math.asin` under NaN semantics: NaN on NaN and outside `[-1,1]`. -/
noncomputable def jsAsinO (a : Option ℝ) : Option ℝ :=
  a.bind fun x => if -1 ≤ x ∧ x ≤ 1 then some (Real.arcsin x) else none

/-- Model of `normalizeAngle` under NaN semantics: `NaN % 360` is NaN, `NaN < 0` is
false, so NaN passes through. -/
noncomputable def normalizeAngleO : Option ℝ → Option ℝ
  | none => none
  | some x => some (normalizeAngle x)

/-- The `|| 0` fallback of source line 81 under NaN semantics: NaN (falsy)
becomes 0. -/
noncomputable def jsOrZeroO : Option ℝ → Option ℝ
  | none => some 0
  | some x => some (jsOrZero x)

/-- Model of `zenith` (source line 160) under NaN semantics:
`Math.min(Math.acos(Math.max(cosZenith, -1)), Math.PI)`. -/
noncomputable def zenithJsOf (cz : Option ℝ) : Option ℝ :=
  jsMinO (jsAcosO (jsMaxO cz (some (-1)))) (some Real.pi)

/-- Model of `totalMinutes` under NaN semantics: all getters of an invalid `Date` are
NaN, and the expression is strict. -/
noncomputable def totalMinutesO (g : Option JsDateG) : Option ℝ :=
  g.map totalMinutesOf

/-- Model of `julianCentury` under NaN semantics: the whole chain from the `getUTC*`
fields through `julianDay`, `julianDayWithTime` (floors, sums, quotients) is
strict. -/
noncomputable def julianCenturyO (g : Option JsDateG) (tz : ℝ) : Option ℝ :=
  g.map fun d => julianCenturyOf d tz

/-- Model of `geomMeanLongSun` under NaN semantics: the polynomial and `%` are strict,
but the trailing `|| 0` turns a NaN into 0 (source lines 78-81). -/
noncomputable def geomMeanLongSunO (T : Option ℝ) : Option ℝ :=
  jsOrZeroO (normalizeAngleO
    (T.map fun t => 280.46646 + t * (36000.76983 + 0.0003032 * t)))

/-- Model of `sunEqOfCenter` under NaN semantics (strict in `T`). -/
noncomputable def sunEqOfCenterO (T : Option ℝ) : Option ℝ :=
  T.map sunEqOfCenterOf

/-- Model of `sunTrueLong` under NaN semantics (source line 97). -/
noncomputable def sunTrueLongO (T : Option ℝ) : Option ℝ :=
  o2 (fun a b => a + b) (geomMeanLongSunO T) (sunEqOfCenterO T)

/-- Model of `sunAppLong` under NaN semantics (source lines 98-101). -/
noncomputable def sunAppLongO (T : Option ℝ) : Option ℝ :=
  o2 (fun tl t => tl - 0.00569 -
    0.00478 * Real.sin (degToRad (125.04 - 1934.136 * t))) (sunTrueLongO T) T

/-- Model of `obliqCorr` under NaN semantics (strict in `T`). -/
noncomputable def obliqCorrO (T : Option ℝ) : Option ℝ := T.map obliqCorrOf

/-- Model of `sunDeclination` under NaN semantics (source lines 116-120): `Math.asin`
of the product of sines. -/
noncomputable def sunDeclinationO (T : Option ℝ) : Option ℝ :=
  (jsAsinO (o2 (fun o a => Real.sin (degToRad o) * Real.sin (degToRad a))
    (obliqCorrO T) (sunAppLongO T))).map radToDeg

/-- Model of `eqOfTime` under NaN semantics (source lines 126-144): strict in
`geomMeanLongSun` and `T` (via `varY`, eccentricity, anomaly). -/
noncomputable def eqOfTimeO (T : Option ℝ) : Option ℝ :=
  o2 (fun l t => 4 * radToDeg (varYOf t * Real.sin (2 * degToRad l) -
    2 * eccentEarthOrbitOf t * Real.sin (degToRad (geomMeanAnomSunOf t)) +
    4 * eccentEarthOrbitOf t * varYOf t * Real.sin (degToRad (geomMeanAnomSunOf t)) *
      Real.cos (2 * degToRad l) -
    0.5 * varYOf t * varYOf t * Real.sin (4 * degToRad l) -
    1.25 * eccentEarthOrbitOf t * eccentEarthOrbitOf t *
      Real.sin (2 * degToRad (geomMeanAnomSunOf t)))) (geomMeanLongSunO T) T

/-- Model of `trueSolarTime` under NaN semantics (source lines 146-148): strict. -/
noncomputable def trueSolarTimeO (g : Option JsDateG) (lon tz : ℝ) : Option ℝ :=
  o2 (fun tm e => wrap1440 (tm + e + 4 * lon - 60 * tz))
    (totalMinutesO g) (eqOfTimeO (julianCenturyO g tz))

/-- Model of `hourAngle` under NaN semantics: `NaN < -180` is false, so NaN passes
through the corrective branch. -/
noncomputable def hourAngleO (tst : Option ℝ) : Option ℝ := tst.map hourAngleOf

/-- Model of `cosZenith` under NaN semantics (strict in all three angles). -/
noncomputable def cosZenithO (lr dr hr : Option ℝ) : Option ℝ :=
  o3 cosZenithOf lr dr hr

/-- Model of `azDenominator` (source lines 163-164) under NaN semantics. -/
noncomputable def azDenO (lr z : Option ℝ) : Option ℝ :=
  o2 (fun a b => Real.cos a * Real.sin b) lr z

/-- The azimuth block (source lines 163-182) under NaN semantics: the guard
`Math.abs(azDenominator) > 0.001` is false when the denominator is NaN, so the
default `azimuth = 0` survives; inside the branch the ratio is clamped, `acos`
applied, reflected when `sin(hourAngle) > 0` (false on NaN), and normalized. -/
noncomputable def azimuthJs (lr dr hr z : Option ℝ) : Option ℝ :=
  if jsAbsGt (azDenO lr z) 0.001 then
    let ratio := o2 (fun n d => n / d)
      (o3 (fun a zz b => Real.sin a * Real.cos zz - Real.sin b) lr z dr)
      (azDenO lr z)
    let azRad := jsAcosO (jsMinO (jsMaxO ratio (some (-1))) (some 1))
    let azRad2 := if jsGtZero (hr.map Real.sin)
      then azRad.map (fun x => 2 * Real.pi - x) else azRad
    normalizeAngleO (azRad2.map radToDeg)
  else some 0

/-- The azimuth field of `calculateSunPosition` under NaN semantics, with the
parse result abstracted as `Option JsDateG` (`none` for an invalid date, whose
getters are all NaN). -/
noncomputable def calcSunAzimuthJs (g : Option JsDateG) (lat lon tz : ℝ) :
    Option ℝ :=
  let T := julianCenturyO g tz
  let lr : Option ℝ := some (degToRad lat)
  let dr := (sunDeclinationO T).map degToRad
  let hr := (hourAngleO (trueSolarTimeO g lon tz)).map degToRad
  azimuthJs lr dr hr (zenithJsOf (cosZenithO lr dr hr))

/-! ### Helper lemmas -/

/-- The latitude in radians used by `calculateSunPosition`. -/
noncomputable def latRadOf (s : SolarState) : ℝ := degToRad s.latitude

/-- The declination in radians used by `calculateSunPosition`. -/
noncomputable def declRadAt (moff : ℤ) (s : SolarState) : ℝ :=
  degToRad (sunDeclinationOf
    (julianCenturyOf (parseLocal s.date s.time moff) s.utcOffset))

/-- The hour angle in radians used by `calculateSunPosition`. -/
noncomputable def haRadAt (moff : ℤ) (s : SolarState) : ℝ :=
  degToRad (hourAngleOf
    (trueSolarTimeOf (parseLocal s.date s.time moff) s.longitude s.utcOffset))

/-- The zenith angle used by `calculateSunPosition`. -/
noncomputable def zenithAt (moff : ℤ) (s : SolarState) : ℝ :=
  zenithOf (cosZenithOf (latRadOf s) (declRadAt moff s) (haRadAt moff s))

/-- A pole observation input (latitude 90°), where the azimuth denominator is
exactly 0. -/
noncomputable def stPole : SolarState :=
  { latitude := 90, longitude := 0, utcOffset := 0, date := ⟨2024, 6, 21⟩,
    time := ⟨12, 0⟩, trackingMode := TrackingMode.auto, manualPitch := 30,
    manualYaw := 180, panelWidth := 2, panelHeight := 1.2,
    panelElevation := 1.2, albedo := 0.45 }

/-- A manual-mode state with out-of-range manual inputs (pitch 120°,
yaw 400°). -/
noncomputable def stManual : SolarState :=
  { latitude := 48.8566, longitude := 2.3522, utcOffset := 1,
    date := ⟨2024, 6, 21⟩, time := ⟨13, 0⟩,
    trackingMode := TrackingMode.manual, manualPitch := 120, manualYaw := 400,
    panelWidth := 2, panelHeight := 1.2, panelElevation := 1.2, albedo := 0.45 }

/-- An arbitrary sun position used as the second argument of
`getPanelNormal`. -/
noncomputable def sunSample : SunPosition :=
  { azimuth := 180, elevation := 45, vector := (0, 1, 0) }

/-- An auto-mode state. -/
noncomputable def stAuto : SolarState :=
  { latitude := 48.8566, longitude := 2.3522, utcOffset := 1,
    date := ⟨2024, 6, 21⟩, time := ⟨13, 0⟩,
    trackingMode := TrackingMode.auto, manualPitch := 30, manualYaw := 180,
    panelWidth := 2, panelHeight := 1.2, panelElevation := 1.2, albedo := 0.45 }

/-- A sun position at the elevation floor -5° (a nighttime output of
`calculateSunPosition`). -/
noncomputable def sunBelow : SunPosition :=
  { azimuth := 10, elevation := -5, vector := (0, 0, 1) }

/-- The fractional Julian Day as the spec states it (modelled from the spec
for comparison with the code): `JD = julianDayNumber(localDate) +
(localHour - utcOffsetHours + localMinute/60)/24 - 0.5`, a function of the five
declared inputs only. -/
noncomputable def specJulianDayWithTime (d : Ymd) (t : Hm) (utcOffset : ℝ) : ℝ :=
  (jdnFromYmd d.year d.month d.day : ℝ) +
    ((t.hour : ℝ) - utcOffset + (t.minute : ℝ) / 60) / 24 - 0.5

lemma calcSun_azimuth (moff : ℤ) (s : SolarState) :
    (calculateSunPosition moff s).azimuth =
      azimuthOf (latRadOf s) (declRadAt moff s) (haRadAt moff s)
        (zenithAt moff s) := rfl

lemma calcSun_elevation (moff : ℤ) (s : SolarState) :
    (calculateSunPosition moff s).elevation =
      max (90 - radToDeg (zenithAt moff s)) (-5) := rfl

lemma calcSun_vector (moff : ℤ) (s : SolarState) :
    (calculateSunPosition moff s).vector =
      sunVectorOf (calculateSunPosition moff s).azimuth
        (calculateSunPosition moff s).elevation := rfl

lemma jsRem_eq_fract (x y : ℝ) (hy : y ≠ 0) (h : 0 ≤ x / y) :
    jsRem x y = y * Int.fract (x / y) := by
  have hxy : y * (x / y) = x := by field_simp
  unfold jsRem jsTrunc
  rw [if_pos h, Int.fract, mul_sub, hxy]

lemma jsRem_eq_ceil (x y : ℝ) (hy : y ≠ 0) (h : x / y < 0) :
    jsRem x y = y * (x / y - ⌈x / y⌉) := by
  have hxy : y * (x / y) = x := by field_simp
  unfold jsRem jsTrunc
  rw [if_neg (not_le.mpr h), mul_sub, hxy]

lemma jsRem_nonneg (x y : ℝ) (hx : 0 ≤ x) (hy : 0 < y) : 0 ≤ jsRem x y := by
  rw [jsRem_eq_fract x y hy.ne' (div_nonneg hx hy.le)]
  exact mul_nonneg hy.le (Int.fract_nonneg _)

lemma jsRem_lt (x y : ℝ) (hy : 0 < y) : jsRem x y < y := by
  rcases le_or_lt 0 (x / y) with h | h
  · rw [jsRem_eq_fract x y hy.ne' h]
    calc y * Int.fract (x / y) < y * 1 :=
      (mul_lt_mul_left hy).mpr (Int.fract_lt_one _)
    _ = y := mul_one y
  · rw [jsRem_eq_ceil x y hy.ne' h]
    have hle : x / y - (⌈x / y⌉ : ℝ) ≤ 0 := by
      have := Int.le_ceil (x / y); linarith
    nlinarith

lemma jsRem_gt_neg (x y : ℝ) (hy : 0 < y) : -y < jsRem x y := by
  rcases le_or_lt 0 (x / y) with h | h
  · rw [jsRem_eq_fract x y hy.ne' h]
    have := mul_nonneg hy.le (Int.fract_nonneg (x / y))
    linarith
  · rw [jsRem_eq_ceil x y hy.ne' h]
    have hgt : -1 < x / y - (⌈x / y⌉ : ℝ) := by
      have := Int.ceil_lt_add_one (x / y); linarith
    nlinarith

lemma wrap1440_nonneg (x : ℝ) : 0 ≤ wrap1440 x := by
  unfold wrap1440
  apply jsRem_nonneg _ _ _ (by norm_num)
  have := jsRem_gt_neg x 1440 (by norm_num)
  linarith

lemma wrap1440_lt (x : ℝ) : wrap1440 x < 1440 := by
  unfold wrap1440
  exact jsRem_lt _ _ (by norm_num)

lemma normalizeAngle_eq_fract (x : ℝ) :
    normalizeAngle x = 360 * Int.fract (x / 360) := by
  unfold normalizeAngle
  rcases le_or_lt 0 (x / 360) with h | h
  · rw [jsRem_eq_fract x 360 (by norm_num) h]
    rw [if_neg (not_lt.mpr (mul_nonneg (by norm_num) (Int.fract_nonneg _)))]
  · rw [jsRem_eq_ceil x 360 (by norm_num) h]
    by_cases hfr : Int.fract (x / 360) = 0
    · have hfl : (⌊x / 360⌋ : ℝ) = x / 360 := by
        rw [Int.fract] at hfr; linarith
      have hceil : (⌈x / 360⌉ : ℤ) = ⌊x / 360⌋ := by
        have : ⌈x / 360⌉ = ⌈((⌊x / 360⌋ : ℤ) : ℝ)⌉ := by rw [hfl]
        rw [this, Int.ceil_intCast]
      rw [hceil, hfr]
      rw [show x / 360 - (⌊x / 360⌋ : ℝ) = 0 by rw [hfl]; ring]
      norm_num
    · have h1 : (⌊x / 360⌋ : ℝ) < x / 360 := by
        rcases lt_or_eq_of_le (Int.floor_le (x / 360)) with h' | h'
        · exact h'
        · exfalso; apply hfr; rw [Int.fract]; linarith
      have hceil : (⌈x / 360⌉ : ℤ) = ⌊x / 360⌋ + 1 := by
        have hle : ⌈x / 360⌉ ≤ ⌊x / 360⌋ + 1 := by
          apply Int.ceil_le.mpr
          push_cast
          exact (Int.lt_floor_add_one (x / 360)).le
        have hgt : ⌊x / 360⌋ < ⌈x / 360⌉ := Int.lt_ceil.mpr h1
        omega
      rw [hceil]
      have hlt : 360 * (x / 360 - ((⌊x / 360⌋ : ℤ) + 1 : ℤ)) < 0 := by
        have := Int.lt_floor_add_one (x / 360)
        push_cast
        nlinarith
      rw [if_pos hlt, Int.fract]
      push_cast
      ring

lemma normalizeAngle_nonneg (x : ℝ) : 0 ≤ normalizeAngle x := by
  rw [normalizeAngle_eq_fract]
  exact mul_nonneg (by norm_num) (Int.fract_nonneg _)

lemma normalizeAngle_lt (x : ℝ) : normalizeAngle x < 360 := by
  rw [normalizeAngle_eq_fract]
  calc (360 : ℝ) * Int.fract (x / 360) < 360 * 1 := by
        exact (mul_lt_mul_left (by norm_num)).mpr (Int.fract_lt_one _)
  _ = 360 := mul_one 360

lemma normalizeAngle_eq_floor_mod (x : ℝ) :
    normalizeAngle x = x - 360 * ⌊x / 360⌋ := by
  rw [normalizeAngle_eq_fract, Int.fract]
  have : (360 : ℝ) * (x / 360) = x := by ring
  rw [mul_sub, this]

lemma cosZenith_bounds (a b h : ℝ) :
    -1 ≤ cosZenithOf a b h ∧ cosZenithOf a b h ≤ 1 := by
  have e1 := Real.cos_sub a b
  have e2 := Real.cos_add a b
  have h1 : Real.cos (a - b) ≤ 1 := Real.cos_le_one _
  have h2 : -1 ≤ Real.cos (a - b) := Real.neg_one_le_cos _
  have h3 : Real.cos (a + b) ≤ 1 := Real.cos_le_one _
  have h4 : -1 ≤ Real.cos (a + b) := Real.neg_one_le_cos _
  have h5 : Real.cos h ≤ 1 := Real.cos_le_one _
  have h6 : -1 ≤ Real.cos h := Real.neg_one_le_cos _
  rw [e1] at h1 h2
  rw [e2] at h3 h4
  unfold cosZenithOf
  constructor
  · nlinarith [mul_nonneg (by linarith : (0:ℝ) ≤ 1 + Real.cos h)
      (by linarith : (0:ℝ) ≤ 1 + (Real.cos a * Real.cos b + Real.sin a * Real.sin b)),
      mul_nonneg (by linarith : (0:ℝ) ≤ 1 - Real.cos h)
      (by linarith : (0:ℝ) ≤ 1 + (Real.sin a * Real.sin b - Real.cos a * Real.cos b))]
  · nlinarith [mul_nonneg (by linarith : (0:ℝ) ≤ 1 + Real.cos h)
      (by linarith : (0:ℝ) ≤ 1 - (Real.cos a * Real.cos b + Real.sin a * Real.sin b)),
      mul_nonneg (by linarith : (0:ℝ) ≤ 1 - Real.cos h)
      (by linarith : (0:ℝ) ≤ 1 - (Real.sin a * Real.sin b - Real.cos a * Real.cos b))]

lemma zenithOf_nonneg (cz : ℝ) : 0 ≤ zenithOf cz :=
  le_min (Real.arccos_nonneg _) Real.pi_nonneg

lemma zenithOf_eq_arccos (cz : ℝ) (h : -1 ≤ cz) :
    zenithOf cz = Real.arccos cz := by
  unfold zenithOf
  rw [max_eq_left h, min_eq_left (Real.arccos_le_pi _)]

lemma radToDeg_nonneg {x : ℝ} (h : 0 ≤ x) : 0 ≤ radToDeg x := by
  unfold radToDeg
  positivity

lemma degToRad_radToDeg (x : ℝ) : degToRad (radToDeg x) = x := by
  unfold degToRad radToDeg
  field_simp

lemma azimuthOf_nonneg (a b c z : ℝ) : 0 ≤ azimuthOf a b c z := by
  unfold azimuthOf
  split
  · exact normalizeAngle_nonneg _
  · exact le_refl 0

lemma azimuthOf_lt (a b c z : ℝ) : azimuthOf a b c z < 360 := by
  unfold azimuthOf
  split
  · exact normalizeAngle_lt _
  · norm_num

lemma elevation_bounds (moff : ℤ) (s : SolarState) :
    -5 ≤ (calculateSunPosition moff s).elevation ∧
      (calculateSunPosition moff s).elevation ≤ 90 := by
  rw [calcSun_elevation]
  refine ⟨le_max_right _ _, ?_⟩
  have h1 : 0 ≤ radToDeg (zenithAt moff s) :=
    radToDeg_nonneg (zenithOf_nonneg _)
  have h2 : 90 - radToDeg (zenithAt moff s) ≤ 90 := by linarith
  exact max_le h2 (by norm_num)

lemma norm3_raw (A E : ℝ) :
    norm3 (Real.sin A * Real.cos E, Real.sin E, Real.cos A * Real.cos E) = 1 := by
  have h1 := Real.sin_sq_add_cos_sq A
  have h2 := Real.sin_sq_add_cos_sq E
  have key : (Real.sin A * Real.cos E) ^ 2 + Real.sin E ^ 2 +
      (Real.cos A * Real.cos E) ^ 2 = 1 := by nlinarith [h1, h2]
  show Real.sqrt ((Real.sin A * Real.cos E) ^ 2 + Real.sin E ^ 2 +
      (Real.cos A * Real.cos E) ^ 2) = 1
  rw [key]
  exact Real.sqrt_one

lemma normalize3_of_norm_one {v : ℝ × ℝ × ℝ} (h : norm3 v = 1) :
    normalize3 v = v := by
  unfold normalize3
  rw [h]
  norm_num

lemma norm3_sunVectorOf (a e : ℝ) : norm3 (sunVectorOf a e) = 1 := by
  unfold sunVectorOf
  rw [normalize3_of_norm_one (norm3_raw _ _)]
  exact norm3_raw _ _

lemma o2_isSome {f : ℝ → ℝ → ℝ} {a b : Option ℝ} {c : ℝ}
    (h : o2 f a b = some c) : ∃ x y, a = some x ∧ b = some y := by
  cases a with
  | none => exact absurd h (by simp [o2])
  | some x =>
    cases b with
    | none => exact absurd h (by simp [o2])
    | some y => exact ⟨x, y, rfl, rfl⟩

lemma o3_isSome {f : ℝ → ℝ → ℝ → ℝ} {a b c : Option ℝ} {d : ℝ}
    (h : o3 f a b c = some d) :
    ∃ x y z, a = some x ∧ b = some y ∧ c = some z := by
  cases a with
  | none => exact absurd h (by simp [o3])
  | some x =>
    cases b with
    | none => exact absurd h (by simp [o3])
    | some y =>
      cases c with
      | none => exact absurd h (by simp [o3])
      | some z => exact ⟨x, y, z, rfl, rfl, rfl⟩

lemma jsAcosO_isSome {a : Option ℝ} {c : ℝ} (h : jsAcosO a = some c) :
    ∃ x, a = some x := by
  cases a with
  | none => exact absurd h (by simp [jsAcosO])
  | some x => exact ⟨x, rfl⟩

/-! ### Claim theorems -/

/-- Claim C2 counterexample: the zenith expression of source line 160,
`Math.min(Math.acos(Math.max(cosZenith, -1)), Math.PI)`, is NOT a two-sided
clamp of the cosine argument before `acos`: at cosine argument 2 (an overshoot
above 1) `acos` receives 2 and returns NaN, which `Math.min` propagates, so the
expression yields NaN. -/
theorem spec_c2_counterexample : zenithJsOf (some 2) = none := by
  have h1 : jsMaxO (some (2 : ℝ)) (some (-1)) = some 2 := by
    show some (max (2 : ℝ) (-1)) = some 2
    rw [max_eq_left (by norm_num : (-1 : ℝ) ≤ 2)]
  have h2 : jsAcosO (some (2 : ℝ)) = none := by
    show (if -1 ≤ (2 : ℝ) ∧ (2 : ℝ) ≤ 1 then some (Real.arccos 2) else none) = none
    rw [if_neg]
    rintro ⟨-, h⟩
    norm_num at h
  unfold zenithJsOf
  rw [h1, h2]
  rfl

/-- Claim C2 (amended): the cosine argument of the zenith `acos` is clamped
only from below (at -1) before the call; the upper side is instead handled by
clamping the `acos` result at π, so an argument above 1 would produce NaN.
However, in exact arithmetic the spherical-law-of-cosines value always lies in
[-1,1], where the code's expression agrees with `arccos` of the argument, so no
trigonometric domain violation occurs for any real input. -/
theorem spec_c2_amended (a b h : ℝ) :
    -1 ≤ cosZenithOf a b h ∧ cosZenithOf a b h ≤ 1 ∧
      zenithJsOf (some (cosZenithOf a b h)) = some (zenithOf (cosZenithOf a b h)) ∧
      zenithOf (cosZenithOf a b h) = Real.arccos (cosZenithOf a b h) := by
  obtain ⟨h1, h2⟩ := cosZenith_bounds a b h
  refine ⟨h1, h2, ?_, zenithOf_eq_arccos _ h1⟩
  have hmax : jsMaxO (some (cosZenithOf a b h)) (some (-1)) =
      some (max (cosZenithOf a b h) (-1)) := rfl
  have hc1 : -1 ≤ max (cosZenithOf a b h) (-1) := le_max_right _ _
  have hc2 : max (cosZenithOf a b h) (-1) ≤ 1 := max_le h2 (by norm_num)
  have hacos : jsAcosO (some (max (cosZenithOf a b h) (-1))) =
      some (Real.arccos (max (cosZenithOf a b h) (-1))) := by
    show (if -1 ≤ max (cosZenithOf a b h) (-1) ∧ max (cosZenithOf a b h) (-1) ≤ 1
      then some (Real.arccos (max (cosZenithOf a b h) (-1))) else none) = _
    rw [if_pos ⟨hc1, hc2⟩]
  unfold zenithJsOf
  rw [hmax, hacos]
  rfl

/-- Claim C5: for every observation input (at any machine UTC offset), the
returned azimuth lies in [0,360) and the returned elevation in [-5,90], and the
angle normalization is floor-modulo, never leaving a negative angle. -/
theorem spec_c5 (moff : ℤ) (s : SolarState) :
    0 ≤ (calculateSunPosition moff s).azimuth ∧
      (calculateSunPosition moff s).azimuth < 360 ∧
      -5 ≤ (calculateSunPosition moff s).elevation ∧
      (calculateSunPosition moff s).elevation ≤ 90 ∧
      ∀ x : ℝ, normalizeAngle x = x - 360 * ⌊x / 360⌋ ∧ 0 ≤ normalizeAngle x := by
  obtain ⟨he1, he2⟩ := elevation_bounds moff s
  refine ⟨?_, ?_, he1, he2,
    fun x => ⟨normalizeAngle_eq_floor_mod x, normalizeAngle_nonneg x⟩⟩
  · rw [calcSun_azimuth]
    exact azimuthOf_nonneg _ _ _ _
  · rw [calcSun_azimuth]
    exact azimuthOf_lt _ _ _ _

/-- Claim C6: for every observation input, the direction vector is built in the
Y-up frame as (sin az · cos el, sin el, cos az · cos el) from the clamped
elevation and the azimuth, then normalized, and it has unit length (hence
within 1e-6 of unit length). -/
theorem spec_c6 (moff : ℤ) (s : SolarState) :
    (calculateSunPosition moff s).vector =
      sunVectorOf (calculateSunPosition moff s).azimuth
        (calculateSunPosition moff s).elevation ∧
      norm3 (calculateSunPosition moff s).vector = 1 ∧
      |norm3 (calculateSunPosition moff s).vector - 1| ≤ 1 / 1000000 := by
  refine ⟨calcSun_vector moff s, ?_, ?_⟩
  · rw [calcSun_vector]
    exact norm3_sunVectorOf _ _
  · rw [calcSun_vector, norm3_sunVectorOf]
    norm_num

/-- Claim C10: for every input, the wrapped true solar time lies in [0,1440),
hence the hour angle trueSolarTime/4 - 180 already lies in [-180,180) and the
corrective branch adding 360 below -180 is never taken. -/
theorem spec_c10 (g : JsDateG) (lon tz : ℝ) :
    0 ≤ trueSolarTimeOf g lon tz ∧ trueSolarTimeOf g lon tz < 1440 ∧
      -180 ≤ trueSolarTimeOf g lon tz / 4 - 180 ∧
      trueSolarTimeOf g lon tz / 4 - 180 < 180 ∧
      hourAngleOf (trueSolarTimeOf g lon tz) =
        trueSolarTimeOf g lon tz / 4 - 180 := by
  have h0 : 0 ≤ trueSolarTimeOf g lon tz := wrap1440_nonneg _
  have h1 : trueSolarTimeOf g lon tz < 1440 := wrap1440_lt _
  have hnot : ¬(trueSolarTimeOf g lon tz / 4 - 180 < -180) := by
    push_neg
    linarith
  refine ⟨h0, h1, by linarith, by linarith, ?_⟩
  unfold hourAngleOf
  exact if_neg hnot

/-- Claim C7: whenever the azimuth denominator cos(lat)·sin(zenith) has
magnitude at most 0.001, or the (pre-clamp) elevation is exactly 90° (sun
directly overhead), the returned azimuth is exactly 0. -/
theorem spec_c7 (moff : ℤ) (s : SolarState)
    (h : |Real.cos (latRadOf s) * Real.sin (zenithAt moff s)| ≤ 0.001 ∨
      (calculateSunPosition moff s).elevation = 90) :
    (calculateSunPosition moff s).azimuth = 0 := by
  have hden : |Real.cos (latRadOf s) * Real.sin (zenithAt moff s)| ≤ 0.001 := by
    rcases h with h | h
    · exact h
    · rw [calcSun_elevation] at h
      have hz0 : radToDeg (zenithAt moff s) = 0 := by
        rcases max_eq_iff.mp h with ⟨h', -⟩ | ⟨h', -⟩
        · linarith
        · norm_num at h'
      have hz : zenithAt moff s = 0 := by
        unfold radToDeg at hz0
        have h180 : zenithAt moff s * 180 = 0 := by
          rcases div_eq_zero_iff.mp hz0 with h' | h'
          · exact h'
          · exact absurd h' Real.pi_ne_zero
        linarith
      rw [hz, Real.sin_zero, mul_zero, abs_zero]
      norm_num
  rw [calcSun_azimuth]
  unfold azimuthOf
  rw [if_neg (not_lt.mpr hden)]

theorem spec_c7_witness : (calculateSunPosition 0 stPole).azimuth = 0 := by
  apply spec_c7
  left
  have hlat : latRadOf stPole = Real.pi / 2 := by
    show (90 : ℝ) * Real.pi / 180 = Real.pi / 2
    ring
  rw [hlat, Real.cos_pi_div_two, zero_mul, abs_zero]
  norm_num

/-- Claim C8: for unit vectors, the incidence metrics give angle 0° and
efficiency 1 when the panel normal equals the sun direction, angle 180° and
efficiency 0 when it is its negation; in general the efficiency equals
max(0, cos(incidenceAngle)), lies in [0,1], and the dot product is clamped to
[-1,1] before `acos`. -/
theorem spec_c8 (sv n : ℝ × ℝ × ℝ) (hs : norm3 sv = 1) (hn : norm3 n = 1) :
    metricsOf sv sv = (0, 1) ∧ metricsOf sv (neg3 sv) = (180, 0) ∧
      (metricsOf sv n).2 = max 0 (Real.cos (degToRad (metricsOf sv n).1)) ∧
      0 ≤ (metricsOf sv n).2 ∧ (metricsOf sv n).2 ≤ 1 ∧
      -1 ≤ min (max (dot3 sv n) (-1)) 1 ∧ min (max (dot3 sv n) (-1)) 1 ≤ 1 := by
  have hS : sv.1 ^ 2 + sv.2.1 ^ 2 + sv.2.2 ^ 2 = 1 := by
    unfold norm3 at hs
    exact Real.sqrt_eq_one.mp hs
  have hd1 : dot3 sv sv = 1 := by
    unfold dot3
    nlinarith [hS]
  have hd2 : dot3 sv (neg3 sv) = -1 := by
    show sv.1 * -sv.1 + sv.2.1 * -sv.2.1 + sv.2.2 * -sv.2.2 = -1
    nlinarith [hS]
  have hclamp1 : min (max (1 : ℝ) (-1)) 1 = 1 := by
    rw [max_eq_left (by norm_num : (-1 : ℝ) ≤ 1), min_self]
  have hclampm1 : min (max (-1 : ℝ) (-1)) 1 = -1 := by
    rw [max_self, min_eq_left (by norm_num : (-1 : ℝ) ≤ 1)]
  have hr0 : radToDeg 0 = 0 := by
    unfold radToDeg
    simp
  have hrpi : radToDeg Real.pi = 180 := by
    unfold radToDeg
    rw [mul_comm, mul_div_assoc, div_self Real.pi_ne_zero, mul_one]
  refine ⟨?_, ?_, ?_, le_max_left _ _,
    max_le (by norm_num) (Real.cos_le_one _),
    le_min (le_max_right _ _) (by norm_num), min_le_right _ _⟩
  · show (radToDeg (Real.arccos (min (max (dot3 sv sv) (-1)) 1)),
      max 0 (Real.cos (Real.arccos (min (max (dot3 sv sv) (-1)) 1)))) = ((0 : ℝ), (1 : ℝ))
    rw [hd1, hclamp1, Real.arccos_one, hr0, Real.cos_zero,
      max_eq_right (by norm_num : (0 : ℝ) ≤ 1)]
  · show (radToDeg (Real.arccos (min (max (dot3 sv (neg3 sv)) (-1)) 1)),
      max 0 (Real.cos (Real.arccos (min (max (dot3 sv (neg3 sv)) (-1)) 1)))) =
        ((180 : ℝ), (0 : ℝ))
    rw [hd2, hclampm1, Real.arccos_neg_one, hrpi, Real.cos_pi,
      max_eq_left (by norm_num : (-1 : ℝ) ≤ 0)]
  · show max 0 (Real.cos (Real.arccos (min (max (dot3 sv n) (-1)) 1))) =
      max 0 (Real.cos (degToRad (radToDeg (Real.arccos (min (max (dot3 sv n) (-1)) 1)))))
    rw [degToRad_radToDeg]

theorem spec_c8_witness :
    norm3 ((0 : ℝ), (1 : ℝ), (0 : ℝ)) = 1 ∧
      metricsOf ((0 : ℝ), (1 : ℝ), (0 : ℝ)) ((0 : ℝ), (1 : ℝ), (0 : ℝ)) = (0, 1) := by
  have h : norm3 ((0 : ℝ), (1 : ℝ), (0 : ℝ)) = 1 := by
    unfold norm3
    norm_num
  exact ⟨h, (spec_c8 _ _ h h).1⟩

/-- Claim C3 counterexample: in manual mode with manualPitch = 120, the pose
returned by `getPanelNormal` has pitch 120, not clamp(120, 0, 90) = 90 — the
function passes the manual inputs through unclamped. -/
theorem spec_c3_counterexample :
    (getPanelNormal stManual sunSample).pitch ≠
      min (max stManual.manualPitch 0) 90 := by
  have hp : (getPanelNormal stManual sunSample).pitch = 120 := rfl
  have hc : min (max stManual.manualPitch 0) 90 = 90 := by
    show min (max (120 : ℝ) 0) 90 = 90
    rw [max_eq_left (by norm_num : (0 : ℝ) ≤ 120),
      min_eq_right (by norm_num : (90 : ℝ) ≤ 120)]
  rw [hp, hc]
  norm_num

/-- Claim C3 (amended): in manual mode `getPanelNormal` returns the manual
pitch and yaw unchanged, regardless of sun position; the clamp of pitch to
[0,90] and the normalization of yaw are applied downstream by `PanelAssembly`
to the pose's angles. -/
theorem spec_c3_amended (s : SolarState) (sun : SunPosition)
    (h : s.trackingMode = TrackingMode.manual) :
    (getPanelNormal s sun).pitch = s.manualPitch ∧
      (getPanelNormal s sun).yaw = s.manualYaw ∧
      panelAssemblyPitchClamped (getPanelNormal s sun).pitch =
        min (max s.manualPitch 0) 90 ∧
      panelAssemblyYawRad (getPanelNormal s sun).yaw =
        degToRad (normalizeAngle s.manualYaw) := by
  have hne : s.trackingMode ≠ TrackingMode.auto := by
    rw [h]
    intro hh
    cases hh
  have hp : (getPanelNormal s sun).pitch = s.manualPitch := by
    show (if s.trackingMode = TrackingMode.auto then sun.elevation
      else s.manualPitch) = s.manualPitch
    rw [if_neg hne]
  have hy : (getPanelNormal s sun).yaw = s.manualYaw := by
    show (if s.trackingMode = TrackingMode.auto then sun.azimuth
      else s.manualYaw) = s.manualYaw
    rw [if_neg hne]
  exact ⟨hp, hy, by rw [hp]; rfl, by rw [hy]; rfl⟩

theorem spec_c3_witness :
    (getPanelNormal stManual sunSample).pitch = stManual.manualPitch ∧
      (getPanelNormal stManual sunSample).yaw = stManual.manualYaw ∧
      panelAssemblyPitchClamped (getPanelNormal stManual sunSample).pitch =
        min (max stManual.manualPitch 0) 90 ∧
      panelAssemblyYawRad (getPanelNormal stManual sunSample).yaw =
        degToRad (normalizeAngle stManual.manualYaw) :=
  spec_c3_amended stManual sunSample rfl

/-- Claim C4 counterexample: in auto mode the pose pitch equals the raw sun
elevation, which can be -5°, so the pose pitch is not in [0,90]. -/
theorem spec_c4_counterexample :
    ¬(0 ≤ (getPanelNormal stAuto sunBelow).pitch) := by
  have hp : (getPanelNormal stAuto sunBelow).pitch = -5 := rfl
  rw [hp]
  norm_num

/-- Claim C4 (amended): in auto mode the pose pitch equals the sun's clamped
elevation, hence lies in [-5,90] (and may be negative); pitch in [0,90] holds
only for the pitch actually applied by `PanelAssembly` after its clamp. -/
theorem spec_c4_amended (moff : ℤ) (s : SolarState)
    (h : s.trackingMode = TrackingMode.auto) :
    (getPanelNormal s (calculateSunPosition moff s)).pitch =
        (calculateSunPosition moff s).elevation ∧
      -5 ≤ (getPanelNormal s (calculateSunPosition moff s)).pitch ∧
      (getPanelNormal s (calculateSunPosition moff s)).pitch ≤ 90 ∧
      ∀ p : ℝ, 0 ≤ panelAssemblyPitchClamped p ∧ panelAssemblyPitchClamped p ≤ 90 := by
  have hp : (getPanelNormal s (calculateSunPosition moff s)).pitch =
      (calculateSunPosition moff s).elevation := by
    show (if s.trackingMode = TrackingMode.auto
      then (calculateSunPosition moff s).elevation else s.manualPitch) = _
    rw [if_pos h]
  obtain ⟨h1, h2⟩ := elevation_bounds moff s
  refine ⟨hp, by rw [hp]; exact h1, by rw [hp]; exact h2, fun p => ⟨?_, ?_⟩⟩
  · exact le_min (le_max_right _ _) (by norm_num)
  · exact min_le_right _ _

theorem spec_c4_witness :
    (getPanelNormal stAuto (calculateSunPosition 0 stAuto)).pitch =
        (calculateSunPosition 0 stAuto).elevation ∧
      -5 ≤ (getPanelNormal stAuto (calculateSunPosition 0 stAuto)).pitch ∧
      (getPanelNormal stAuto (calculateSunPosition 0 stAuto)).pitch ≤ 90 ∧
      ∀ p : ℝ, 0 ≤ panelAssemblyPitchClamped p ∧ panelAssemblyPitchClamped p ≤ 90 :=
  spec_c4_amended 0 stAuto rfl

/-- Claim C1 is a code bug: the code parses the date/time string as
machine-local time but then reads `getUTC*` fields, so its fractional Julian
Day agrees with the spec's formula only when the machine runs at UTC
(offset 0); on a machine at UTC+1 (offset 60 minutes) the same input
2024-06-21 13:00 with utcOffset 1 yields a Julian Day smaller by 1/24. -/
theorem spec_c1_code_bug :
    julianDayWithTimeOf (parseLocal ⟨2024, 6, 21⟩ ⟨13, 0⟩ 0) 1 =
        specJulianDayWithTime ⟨2024, 6, 21⟩ ⟨13, 0⟩ 1 ∧
      julianDayWithTimeOf (parseLocal ⟨2024, 6, 21⟩ ⟨13, 0⟩ 60) 1 ≠
        specJulianDayWithTime ⟨2024, 6, 21⟩ ⟨13, 0⟩ 1 := by
  have hp0 : parseLocal ⟨2024, 6, 21⟩ ⟨13, 0⟩ 0 =
      { hours := 13, minutes := 0, seconds := 0, utcYear := 2024,
        utcMonth1 := 6, utcDay := 21, utcHours := 13, utcMinutes := 0 } := by
    decide
  have hp60 : parseLocal ⟨2024, 6, 21⟩ ⟨13, 0⟩ 60 =
      { hours := 13, minutes := 0, seconds := 0, utcYear := 2024,
        utcMonth1 := 6, utcDay := 21, utcHours := 12, utcMinutes := 0 } := by
    decide
  have hj : jdnFromYmd 2024 6 21 = 2460483 := by decide
  constructor
  · rw [hp0]
    unfold julianDayWithTimeOf julianDayOf specJulianDayWithTime
    norm_num
  · rw [hp60]
    unfold julianDayWithTimeOf julianDayOf specJulianDayWithTime
    norm_num [hj]

lemma normalizeAngleO_isSome (a : Option ℝ) :
    (normalizeAngleO a).isSome = a.isSome := by
  cases a <;> rfl

lemma map_isSome (f : ℝ → ℝ) (a : Option ℝ) :
    (a.map f).isSome = a.isSome := by
  cases a <;> rfl

lemma ite_map_isSome (c : Prop) [Decidable c] (f : ℝ → ℝ) (a : Option ℝ) :
    (if c then a.map f else a).isSome = a.isSome := by
  split
  · exact map_isSome f a
  · rfl

lemma azimuthJs_isSome (lr dr hr : Option ℝ) :
    (azimuthJs lr dr hr (zenithJsOf (cosZenithO lr dr hr))).isSome = true := by
  rcases hd : azDenO lr (zenithJsOf (cosZenithO lr dr hr)) with _ | d
  · unfold azimuthJs
    rw [hd]
    rfl
  · obtain ⟨a, zv, hlr, hzv⟩ :=
      o2_isSome (show o2 (fun a b => Real.cos a * Real.sin b) lr
        (zenithJsOf (cosZenithO lr dr hr)) = some d from hd)
    obtain ⟨x1, x2, hx1, -⟩ :=
      o2_isSome (show o2 min (jsAcosO (jsMaxO (cosZenithO lr dr hr) (some (-1))))
        (some Real.pi) = some zv from hzv)
    obtain ⟨m, hm⟩ := jsAcosO_isSome hx1
    obtain ⟨czv, y2, hcz, -⟩ :=
      o2_isSome (show o2 max (cosZenithO lr dr hr) (some (-1)) = some m from hm)
    obtain ⟨av, dv, hv, hav, hdv, hhv⟩ :=
      o3_isSome (show o3 cosZenithOf lr dr hr = some czv from hcz)
    have hnum : o3 (fun a zz b => Real.sin a * Real.cos zz - Real.sin b) lr
        (zenithJsOf (cosZenithO lr dr hr)) dr =
        some (Real.sin a * Real.cos zv - Real.sin dv) := by
      rw [hzv, hlr, hdv]
      rfl
    have hratio : o2 (fun n d => n / d)
        (o3 (fun a zz b => Real.sin a * Real.cos zz - Real.sin b) lr
          (zenithJsOf (cosZenithO lr dr hr)) dr)
        (azDenO lr (zenithJsOf (cosZenithO lr dr hr))) =
        some ((Real.sin a * Real.cos zv - Real.sin dv) / d) := by
      rw [hnum, hd]
      rfl
    have hq1 : -1 ≤ min (max ((Real.sin a * Real.cos zv - Real.sin dv) / d) (-1)) 1 :=
      le_min (le_max_right _ _) (by norm_num)
    have hq2 : min (max ((Real.sin a * Real.cos zv - Real.sin dv) / d) (-1)) 1 ≤ 1 :=
      min_le_right _ _
    have hazRad : jsAcosO (jsMinO (jsMaxO (o2 (fun n d => n / d)
        (o3 (fun a zz b => Real.sin a * Real.cos zz - Real.sin b) lr
          (zenithJsOf (cosZenithO lr dr hr)) dr)
        (azDenO lr (zenithJsOf (cosZenithO lr dr hr)))) (some (-1))) (some 1)) =
        some (Real.arccos
          (min (max ((Real.sin a * Real.cos zv - Real.sin dv) / d) (-1)) 1)) := by
      rw [hratio]
      show (if -1 ≤ min (max ((Real.sin a * Real.cos zv - Real.sin dv) / d) (-1)) 1 ∧
          min (max ((Real.sin a * Real.cos zv - Real.sin dv) / d) (-1)) 1 ≤ 1
        then some (Real.arccos
          (min (max ((Real.sin a * Real.cos zv - Real.sin dv) / d) (-1)) 1))
        else none) = _
      rw [if_pos ⟨hq1, hq2⟩]
    by_cases hg : jsAbsGt (azDenO lr (zenithJsOf (cosZenithO lr dr hr))) 0.001 = true
    · simp only [azimuthJs]
      rw [if_pos hg, normalizeAngleO_isSome, map_isSome, ite_map_isSome, hazRad]
      rfl
    · simp only [azimuthJs]
      rw [if_neg hg]
      rfl

/-- Claim C9: for every input to the sun-position calculation — including a
malformed date/time whose parse makes every `Date` getter NaN (`g = none`) —
the returned azimuth is a real number and never NaN; in the malformed case the
NaN poisons the azimuth denominator, the guard `|cos lat · sin zenith| > 0.001`
evaluates to false, and the default azimuth 0 is returned. -/
theorem spec_c9 (g : Option JsDateG) (lat lon tz : ℝ) :
    (calcSunAzimuthJs g lat lon tz).isSome = true ∧
      calcSunAzimuthJs none lat lon tz = some 0 := by
  constructor
  · exact azimuthJs_isSome _ _ _
  · rfl

